import Mathlib

/-!
Formal model of the 4U backend's escrow-gated build-job orchestrator.

The definitions below are a shallow embedding of the relevant source:
  - supabase/migrations/00014_state_machine.sql and migration 00019
    (build_state_transitions, validate_build_transition),
  - supabase/migrations/00011 (claim_next_build_job, requeue_stuck_build_jobs),
  - src/routes/hire.js (hire / accept / cancel / dispute handlers),
  - src/lib/solanaEscrow.js (verifyUsdcDeposit, releaseToAgent, refundToBuyer),
  - src/services/buildWorker.js and src/services/buildPipeline.js.

Monetary amounts (USDC) are modelled as rationals, timestamps as integers.
Database rows become Lean structures; each route handler becomes a pure
function from the fetched row plus an input record (capturing auth results
and external-call outcomes) to an outcome paired with the row as left in
the store.
-/

namespace FourU

/-- The nine legal values of builds.status (CHECK constraint, migration 00014). -/
inductive BuildStatus where
  | hired
  | building
  | delivered
  | revision_requested
  | disputed
  | arbitration_pending
  | accepted
  | cancelled
  | refunded
deriving DecidableEq, Repr, Fintype

/-- The five legal values of builds.escrow_status (migration 00014). -/
inductive EscrowStatus where
  | pending
  | locked
  | released
  | refunded
  | disputed_hold
deriving DecidableEq, Repr, Fintype

/-- The five legal values of build_jobs.status (migration 00011). -/
inductive JobStatus where
  | pending
  | running
  | completed
  | failed
  | dead_letter
deriving DecidableEq, Repr, Fintype

/-- Actors named in the build_state_transitions table. -/
inductive Actor where
  | requester
  | agent
  | platform
deriving DecidableEq, Repr, Fintype

/-- The rows INSERTed into build_state_transitions by migration 00014
(first fourteen entries) and migration 00019 (last two entries). -/
def build_state_transitions : List (BuildStatus × BuildStatus × Actor) :=
  [ (.hired,               .building,            .agent),
    (.hired,               .cancelled,           .requester),
    (.building,            .delivered,           .agent),
    (.building,            .cancelled,           .requester),
    (.delivered,           .accepted,            .requester),
    (.delivered,           .revision_requested,  .requester),
    (.delivered,           .disputed,            .requester),
    (.revision_requested,  .building,            .agent),
    (.revision_requested,  .disputed,            .requester),
    (.disputed,            .arbitration_pending, .platform),
    (.disputed,            .accepted,            .platform),
    (.disputed,            .refunded,            .platform),
    (.arbitration_pending, .accepted,            .platform),
    (.arbitration_pending, .refunded,            .platform),
    (.hired,               .delivered,           .agent),
    (.revision_requested,  .delivered,           .agent) ]

/-- validate_build_transition from migration 00014: an early TRUE branch for
dispute-resolution edges, otherwise membership in the transition table. -/
def validate_build_transition (p_from p_to : BuildStatus) : Bool :=
  if (p_from = .disputed ∨ p_from = .arbitration_pending) ∧
      (p_to = .accepted ∨ p_to = .refunded) then
    true
  else
    decide (∃ r ∈ build_state_transitions, r.1 = p_from ∧ r.2.1 = p_to)

/-- The transition graph exactly as the specification text lists it
(spec section 4.4): hired → building, hired → cancelled,
building → delivered, building → cancelled, delivered → accepted,
delivered → revision_requested, delivered → disputed,
revision_requested → building, disputed → arbitration_pending,
disputed → accepted, disputed → refunded, arbitration_pending → accepted,
arbitration_pending → refunded. Written from the spec words, to be compared
with the table the migrations build. -/
def specTransitionGraph : List (BuildStatus × BuildStatus) :=
  [ (.hired,               .building),
    (.hired,               .cancelled),
    (.building,            .delivered),
    (.building,            .cancelled),
    (.delivered,           .accepted),
    (.delivered,           .revision_requested),
    (.delivered,           .disputed),
    (.revision_requested,  .building),
    (.disputed,            .arbitration_pending),
    (.disputed,            .accepted),
    (.disputed,            .refunded),
    (.arbitration_pending, .accepted),
    (.arbitration_pending, .refunded) ]

/-- The three edges the migrations add beyond the graph the spec lists:
revision_requested → disputed (migration 00014) and hired → delivered,
revision_requested → delivered (migration 00019). -/
def extraTransitionEdges : List (BuildStatus × BuildStatus) :=
  [ (.revision_requested, .disputed),
    (.hired,              .delivered),
    (.revision_requested, .delivered) ]

/-- A row of the builds table (migrations 00005 and 00014). -/
structure Build where
  id : Nat
  request_id : Nat
  agent_id : Option Nat
  agent_name : Option String
  status : BuildStatus
  escrow_amount : ℚ
  escrow_status : EscrowStatus
  delivery_url : Option String
  agent_payout : Option ℚ
  platform_fee : Option ℚ
  deposit_tx_signature : Option String
  release_tx_signature : Option String
  refund_tx_signature : Option String
  dispute_reason : Option String
  dispute_opened_at : Option Int
deriving DecidableEq, Repr

/-- The guarded-update pattern every route handler uses around a status
write: consult validate_build_transition, update the row on true, leave it
untouched and report rejection on false. -/
def applyTransition (b : Build) (tgt : BuildStatus) : Bool × Build :=
  if validate_build_transition b.status tgt then
    (true, { b with status := tgt })
  else
    (false, b)

/-- A row of the build_jobs table (migrations 00007 and 00011). The column
named error (written by buildPipeline.js and the SDK fail route) is distinct
from last_error (written by buildWorker.js markJobFailed). -/
structure BuildJob where
  id : Nat
  build_id : Nat
  agent_id : Nat
  status : JobStatus
  build_tool : Option String
  prompt : Option String
  delivery_url : Option String
  error : Option String
  retry_count : Nat
  max_retries : Nat
  last_error : Option String
  claimed_at : Option Int
  claimed_by : Option String
  created_at : Int
  updated_at : Int
deriving DecidableEq, Repr

/-- The WHERE clause of claim_next_build_job: status = pending AND
retry_count < max_retries. -/
def jobEligible (j : BuildJob) : Bool :=
  j.status = JobStatus.pending ∧ j.retry_count < j.max_retries

/-- The SELECT of claim_next_build_job: the single oldest eligible row
(ORDER BY created_at ASC LIMIT 1; ties resolved by store order). -/
def oldestEligible (s : List BuildJob) : Option BuildJob :=
  (s.filter jobEligible).argmin (·.created_at)

/-- The value claim_next_build_job returns: the pre-claim snapshot v_job
with status, claimed_at and claimed_by patched (the function does not patch
updated_at on the returned copy). -/
def claimedSnapshot (now : Int) (w : String) (v : BuildJob) : BuildJob :=
  { v with status := .running, claimed_at := some now, claimed_by := some w }

/-- The UPDATE claim_next_build_job performs on the stored row with the
selected id (updated_at is refreshed on the stored row). -/
def claimUpdate (now : Int) (w : String) (vid : Nat) (j : BuildJob) : BuildJob :=
  if j.id = vid then
    { j with status := .running, claimed_at := some now,
             claimed_by := some w, updated_at := now }
  else j

/-- claim_next_build_job (migration 00011): select the oldest eligible
pending row, flip the stored row to running stamping claimed_at and
claimed_by, and return the selected snapshot with status, claimed_at and
claimed_by patched in. Returns none, leaving the store untouched, when no
eligible row exists. -/
def claim_next_build_job (now : Int) (p_worker_id : String) (s : List BuildJob) :
    Option BuildJob × List BuildJob :=
  match oldestEligible s with
  | none => (none, s)
  | some v =>
      (some (claimedSnapshot now p_worker_id v),
       s.map (claimUpdate now p_worker_id v.id))

/-- N invocations of claim_next_build_job, one per caller. Each call's
read-modify-write is atomic under the row lock (FOR UPDATE SKIP LOCKED), so
any concurrent execution of N callers is equivalent to some sequential
order of the N calls; this function models that order. Returns the list of
successfully claimed snapshots and the final store. -/
def claimMany (now : Int) (workers : List String) (s : List BuildJob) :
    List BuildJob × List BuildJob :=
  match workers with
  | [] => ([], s)
  | w :: ws =>
      match claim_next_build_job now w s with
      | (none, s1) => claimMany now ws s1
      | (some j, s1) =>
          let r := claimMany now ws s1
          (j :: r.1, r.2)

/-- The reaper threshold from migration 00011: claimed more than 10 minutes
ago (600 seconds on the integer-seconds clock used here). -/
def STUCK_TIMEOUT : Int := 600

/-- The WHERE clause of requeue_stuck_build_jobs: status running AND
claimed_at older than the threshold. A NULL claimed_at never satisfies the
SQL comparison, hence the none branch is false. -/
def stuckJob (now : Int) (j : BuildJob) : Bool :=
  match j.claimed_at with
  | some t => j.status = JobStatus.running ∧ t < now - STUCK_TIMEOUT
  | none => false

/-- The per-row effect of requeue_stuck_build_jobs: a stuck running row is
reset to pending with both claim columns cleared and updated_at refreshed;
every other row is untouched. -/
def requeueJob (now : Int) (j : BuildJob) : BuildJob :=
  if stuckJob now j then
    { j with status := .pending, claimed_at := none, claimed_by := none,
             updated_at := now }
  else j

/-- requeue_stuck_build_jobs (migration 00011): reset all stuck running
rows and return ROW_COUNT, the number of rows updated. -/
def requeue_stuck_build_jobs (now : Int) (s : List BuildJob) :
    Nat × List BuildJob :=
  ((s.filter (stuckJob now)).length, s.map (requeueJob now))

/-- buildWorker.js markJobFailed: on a failed execution attempt, re-queue
the job unless retries are exhausted (retryCount + 1 >= maxRetries moves it
to dead_letter), record last_error, bump retry_count, clear the claim
columns. -/
def markJobFailed (now : Int) (jobId : Nat) (errorMsg : String)
    (retryCount maxRetries : Nat) (s : List BuildJob) : List BuildJob :=
  s.map fun j =>
    if j.id = jobId then
      { j with
          status := if retryCount + 1 ≥ maxRetries then .dead_letter
                    else .pending,
          last_error := some errorMsg, retry_count := retryCount + 1,
          claimed_at := none, claimed_by := none, updated_at := now }
    else j

/-- The job store together with the builds table, as the pipeline sees it. -/
structure World where
  jobs : List BuildJob
  builds : List Build
deriving Repr

/-- An unconditional UPDATE of the build rows with the given id; the
pipeline status writes do not consult validate_build_transition. -/
def updateBuildRows (bid : Nat) (f : Build → Build) (bs : List Build) :
    List Build :=
  bs.map fun b => if b.id = bid then f b else b

/-- buildPipeline.js markJobRunning: job to running with build_tool set,
owning build to building. -/
def pipelineMarkJobRunning (jobId : Nat) (s : List BuildJob) :
    List BuildJob :=
  s.map fun j =>
    if j.id = jobId then
      { j with status := .running, build_tool := some "4u-autopilot" }
    else j

/-- buildPipeline.js deliverJob: job completed with delivery_url. -/
def pipelineDeliverJob (jobId : Nat) (url : String) (s : List BuildJob) :
    List BuildJob :=
  s.map fun j =>
    if j.id = jobId then
      { j with status := .completed, delivery_url := some url }
    else j

/-- buildPipeline.js markJobFailed: sets status failed and the error
column only — unlike buildWorker.js markJobFailed it does not touch
retry_count, last_error or the claim columns. -/
def pipelineMarkJobFailed (jobId : Nat) (msg : String) (s : List BuildJob) :
    List BuildJob :=
  s.map fun j =>
    if j.id = jobId then { j with status := .failed, error := some msg }
    else j

/-- runBuildPipeline (buildPipeline.js): fetch the spec (failure marks the
job failed before it ever runs), mark job running and build building, then
either deliver (job completed, build delivered) or trap the execution
error and mark the job failed. The whole body is wrapped in try/catch and
the catch does not rethrow, so the function never raises to its caller;
exec carries the outcome of the generate/zip/deploy steps. -/
def runBuildPipeline (job : BuildJob) (specFound : Bool)
    (exec : Except String String) (w : World) : World :=
  if specFound = false then
    { w with
        jobs := pipelineMarkJobFailed job.id
                  "Could not load job spec (build or request missing)" w.jobs }
  else
    let w1 : World :=
      { jobs := pipelineMarkJobRunning job.id w.jobs,
        builds := updateBuildRows job.build_id
          (fun b => { b with status := .building }) w.builds }
    match exec with
    | .ok url =>
        { jobs := pipelineDeliverJob job.id url w1.jobs,
          builds := updateBuildRows job.build_id
            (fun b => { b with status := .delivered, delivery_url := some url })
            w1.builds }
    | .error msg =>
        { w1 with jobs := pipelineMarkJobFailed job.id msg w1.jobs }

/-- processOne (buildWorker.js): awaits runBuildPipeline. Because
runBuildPipeline traps every execution error internally and never
rethrows, the catch branch of processOne — the only call site of
buildWorker.js markJobFailed — is unreachable, and processOne reduces to
the pipeline call. -/
def processOne (job : BuildJob) (specFound : Bool)
    (exec : Except String String) (w : World) : World :=
  runBuildPipeline job specFound exec w

/-- A concrete eligible pending job used to instantiate the queue theorems. -/
def jobA : BuildJob :=
  { id := 1, build_id := 11, agent_id := 21, status := .pending,
    build_tool := none, prompt := none, delivery_url := none, error := none,
    retry_count := 0, max_retries := 3, last_error := none,
    claimed_at := none, claimed_by := none, created_at := 10, updated_at := 10 }

/-- A second, older eligible job. -/
def jobB : BuildJob :=
  { jobA with id := 2, created_at := 5, updated_at := 5 }

/-- A two-job demo store; jobB is the oldest eligible row. -/
def demoStore : List BuildJob := [jobA, jobB]

/-- A concrete build row used to instantiate universally quantified
handler theorems. -/
def sampleBuild : Build :=
  { id := 1, request_id := 1, agent_id := some 7, agent_name := none,
    status := .accepted, escrow_amount := 100, escrow_status := .released,
    delivery_url := none, agent_payout := some 98, platform_fee := some 2,
    deposit_tx_signature := none, release_tx_signature := none,
    refund_tx_signature := none, dispute_reason := none,
    dispute_opened_at := none }

/-- A fresh pending job (retry_count 0, max_retries 3) owned by build 41,
used to trace the end-to-end failure path. -/
def cexJob : BuildJob := { jobA with id := 9, build_id := 41 }

/-- The build owning cexJob. -/
def cexBuild0 : Build :=
  { sampleBuild with
      id := 41, status := .hired, escrow_status := .locked,
      agent_payout := none, platform_fee := none }

/-- The world after a worker claims cexJob (at time 100) and its execution
attempt fails: the claimed snapshot is processed with a failing
generate/deploy step. -/
def cexWorldAfterFail : World :=
  processOne (claimedSnapshot 100 "w1" cexJob) true
    (Except.error "Netlify deploy failed: 500")
    { jobs := (claim_next_build_job 100 "w1" [cexJob]).2,
      builds := [cexBuild0] }

/-- A running job whose claim is stale (claimed_at 0). -/
def runningStaleJob : BuildJob :=
  { jobA with
      id := 4, status := .running, claimed_at := some 0,
      claimed_by := some "w0" }

/-- PLATFORM_FEE_BPS (solanaEscrow.js): 2 percent = 200 basis points. -/
def PLATFORM_FEE_BPS : ℚ := 200

/-- JS Math.round on the non-negative amounts used here: floor(x + 1/2). -/
def jsRound (q : ℚ) : ℤ := ⌊q + 1 / 2⌋

/-- Outcome of a route handler: a success JSON body carrying the updated
build, a 4xx rejection, or a thrown error forwarded to next(e). -/
inductive HandlerOutcome where
  | ok : Build → HandlerOutcome
  | rejected : String → HandlerOutcome
  | errored : String → HandlerOutcome
deriving DecidableEq, Repr

/-- releaseToAgent (solanaEscrow.js): computes the 98/2 split with
Math.floor at 1/10000 USDC granularity, then performs the on-chain
transfer; the transfer outcome (signature, or a thrown error) is the
chain argument. -/
def releaseToAgent (escrowAmount : ℚ) (chain : Except String String) :
    Except String (String × ℚ × ℚ) :=
  let agentPayout : ℚ :=
    (⌊escrowAmount * ((10000 : ℚ) - PLATFORM_FEE_BPS)⌋ : ℚ) / 10000
  let platformFee : ℚ := escrowAmount - agentPayout
  match chain with
  | .error e => .error e
  | .ok sig => .ok (sig, agentPayout, platformFee)

/-- refundToBuyer (solanaEscrow.js): transfers the full escrow amount back
to the buyer; the transfer outcome is the chain argument. -/
def refundToBuyer (escrowAmount : ℚ) (chain : Except String String) :
    Except String String :=
  match chain with
  | .error e => .error e
  | .ok sig => .ok sig

/-- Inputs to the accept handler besides the build row: the request fetch
and ownership results, the agent wallet on file (none when the lookup
found none), and the outcome of the on-chain release transfer. -/
structure AcceptInput where
  requestFound : Bool
  isOwner : Bool
  agentWallet : Option String
  chain : Except String String
deriving Repr

/-- POST /api/hire/:buildId/accept (hire.js): transition guard to
accepted, frozen-escrow guard, locked guard, request/ownership checks;
then the release transfer when the escrow is positive and a wallet is on
file (a thrown transfer error aborts before any write), otherwise the
Math.round split with no transfer; finally the single builds UPDATE to
accepted/released recording the split. -/
def acceptHandler (b : Build) (inp : AcceptInput) : HandlerOutcome × Build :=
  if validate_build_transition b.status .accepted = false then
    (.rejected "Cannot accept build: it is not in a state from which accepted is legal", b)
  else if b.escrow_status = .disputed_hold then
    (.rejected "Escrow is frozen pending dispute resolution", b)
  else if b.escrow_status ≠ .locked then
    (.rejected "Escrow is not locked", b)
  else if inp.requestFound = false then
    (.rejected "Request not found", b)
  else if inp.isOwner = false then
    (.rejected "You do not own this request", b)
  else if 0 < b.escrow_amount ∧ inp.agentWallet ≠ none then
    match releaseToAgent b.escrow_amount inp.chain with
    | .error e => (.errored e, b)
    | .ok (sig, payout, fee) =>
        let b' : Build :=
          { b with
              status := .accepted, escrow_status := .released,
              agent_payout := some payout, platform_fee := some fee,
              release_tx_signature := some sig }
        (.ok b', b')
  else
    let agentPayout : ℚ :=
      (jsRound (b.escrow_amount * ((10000 : ℚ) - PLATFORM_FEE_BPS)) : ℚ) / 10000
    let b' : Build :=
      { b with
          status := .accepted, escrow_status := .released,
          agent_payout := some agentPayout,
          platform_fee := some (b.escrow_amount - agentPayout),
          release_tx_signature := none }
    (.ok b', b')

/-- Inputs to the cancel handler besides the build row. -/
structure CancelInput where
  requestFound : Bool
  isOwner : Bool
  requesterWallet : Option String
  chain : Except String String
deriving Repr

/-- POST /api/hire/:buildId/cancel (hire.js). The handler fetches the
build with select id, request_id, status — escrow_status is not in the
column list, so the source comparison
build.escrow_status === disputed_hold reads an absent property
(undefined) and can never be true; fetchedEscrowStatus models the absent
field. The refund transfer runs only when the escrow is positive and the
requester has a wallet address on file. -/
def cancelHandler (b : Build) (inp : CancelInput) : HandlerOutcome × Build :=
  if inp.requestFound = false then
    (.rejected "Request not found", b)
  else if inp.isOwner = false then
    (.rejected "You do not own this request", b)
  else if validate_build_transition b.status .cancelled = false then
    (.rejected "Cannot cancel build in this status", b)
  else
    let fetchedEscrowStatus : Option EscrowStatus := none
    if fetchedEscrowStatus = some .disputed_hold then
      (.rejected "Escrow is frozen pending dispute resolution", b)
    else
      match (if 0 < b.escrow_amount ∧ inp.requesterWallet ≠ none then
               (refundToBuyer b.escrow_amount inp.chain).map some
             else .ok none) with
      | .error e => (.errored e, b)
      | .ok sigO =>
          let b' : Build :=
            { b with
                status := .cancelled, escrow_status := .refunded,
                refund_tx_signature := sigO }
          (.ok b', b')

/-- Inputs to the dispute handler: the request body reason, the combined
request-found-and-owned check, and the clock. -/
structure DisputeInput where
  reason : Option String
  isOwner : Bool
  now : Int
deriving Repr

/-- POST /api/hire/:buildId/dispute (hire.js): requires a reason and
ownership, consults only validate_build_transition (escrow_status is
fetched but never checked), then sets disputed / disputed_hold recording
the reason and timestamp. -/
def disputeHandler (b : Build) (inp : DisputeInput) : HandlerOutcome × Build :=
  match inp.reason with
  | none => (.rejected "Dispute reason is required", b)
  | some reason =>
      if inp.isOwner = false then
        (.rejected "You do not own this request", b)
      else if validate_build_transition b.status .disputed = false then
        (.rejected "Cannot raise dispute on build in this status", b)
      else
        let b' : Build :=
          { b with
              status := .disputed, escrow_status := .disputed_hold,
              dispute_reason := some reason,
              dispute_opened_at := some inp.now }
        (.ok b', b')

/-- A row of the pitches table, as the hire handler reads it. -/
structure Pitch where
  id : Nat
  request_id : Nat
  agent_id : Option Nat
  agent_name : Option String
  price : Option ℚ
deriving Repr

/-- Result record of verifyUsdcDeposit. -/
structure VerifyResult where
  verified : Bool
  actualAmount : Option ℚ
  error : Option String
deriving Repr

/-- verifyUsdcDeposit (solanaEscrow.js): depositTransfer is the amount of
the matching USDC transfer into the escrow token account authorized by
the buyer wallet (none covers transaction not found, failed on-chain, or
no matching transfer); a found transfer verifies unless it is more than
0.01 USDC short of the expected amount. -/
def verifyUsdcDeposit (depositTransfer : Option ℚ) (expectedAmount : ℚ) :
    VerifyResult :=
  match depositTransfer with
  | none =>
      { verified := false, actualAmount := none,
        error := some "No matching USDC transfer to escrow wallet found in transaction" }
  | some a =>
      if a < expectedAmount - 1 / 100 then
        { verified := false, actualAmount := some a,
          error := some "Deposit amount is less than required" }
      else
        { verified := true, actualAmount := some a, error := none }

/-- Inputs to POST /api/hire: the request-body transaction signature, the
request fetch / ownership / open checks, the pitch row, the observed
on-chain deposit, whether the sdk_pitches row exists, fresh row ids and
the clock. -/
structure HireInput where
  txSignature : Option String
  requestFound : Bool
  isOwner : Bool
  requestOpen : Bool
  pitchFound : Bool
  pitch : Pitch
  depositTransfer : Option ℚ
  sdkPitchFound : Bool
  freshBuildId : Nat
  freshJobId : Nat
  now : Int
deriving Repr

/-- Outcome of the hire handler: a rejection, or the created build
together with the created build job when one is inserted. -/
inductive HireOutcome where
  | rejected : String → HireOutcome
  | created : Build → Option BuildJob → HireOutcome
deriving DecidableEq, Repr

/-- POST /api/hire (hire.js): parameter and signature checks, request
ownership and openness, pitch lookup, then — only when the pitch price is
positive — on-chain deposit verification before anything is written. A
pitch with agent_id null is an SDK pitch: the build row is inserted
(status hired, escrow locked) but no build_jobs row is created. A pitch
with an internal agent id inserts the build row and a pending build_jobs
row. -/
def hireHandler (inp : HireInput) : HireOutcome :=
  if inp.txSignature = none then .rejected "txSignature is required"
  else if inp.requestFound = false then .rejected "Request not found"
  else if inp.isOwner = false then .rejected "You do not own this request"
  else if inp.requestOpen = false then .rejected "Request is not open for hiring"
  else if inp.pitchFound = false then .rejected "Pitch not found for this request"
  else if 0 < inp.pitch.price.getD 0 ∧
      (verifyUsdcDeposit inp.depositTransfer
        (inp.pitch.price.getD 0)).verified = false then
    .rejected "USDC deposit verification failed"
  else
    match inp.pitch.agent_id with
    | none =>
        if inp.sdkPitchFound = false then
          .rejected "SDK pitch record not found"
        else
          .created
            { id := inp.freshBuildId, request_id := inp.pitch.request_id,
              agent_id := none, agent_name := inp.pitch.agent_name,
              status := .hired, escrow_amount := inp.pitch.price.getD 0,
              escrow_status := .locked, delivery_url := none,
              agent_payout := none, platform_fee := none,
              deposit_tx_signature := inp.txSignature,
              release_tx_signature := none, refund_tx_signature := none,
              dispute_reason := none, dispute_opened_at := none }
            none
    | some aid =>
        .created
          { id := inp.freshBuildId, request_id := inp.pitch.request_id,
            agent_id := some aid, agent_name := none,
            status := .hired, escrow_amount := inp.pitch.price.getD 0,
            escrow_status := .locked, delivery_url := none,
            agent_payout := none, platform_fee := none,
            deposit_tx_signature := inp.txSignature,
            release_tx_signature := none, refund_tx_signature := none,
            dispute_reason := none, dispute_opened_at := none }
          (some { id := inp.freshJobId, build_id := inp.freshBuildId,
                  agent_id := aid, status := .pending, build_tool := none,
                  prompt := none, delivery_url := none, error := none,
                  retry_count := 0, max_retries := 3, last_error := none,
                  claimed_at := none, claimed_by := none,
                  created_at := inp.now, updated_at := inp.now })

/-- A delivered build with 100 USDC locked in escrow. -/
def demoAcceptBuild : Build :=
  { sampleBuild with
      id := 50, status := .delivered, escrow_status := .locked,
      agent_payout := none, platform_fee := none }

/-- Accept-handler inputs for a successful release. -/
def demoAcceptInput : AcceptInput :=
  { requestFound := true, isOwner := true, agentWallet := some "AgentWallet",
    chain := .ok "releaseSig" }

/-- The accepted build after release: 98 to the agent, 2 retained. -/
def demoAcceptPost : Build :=
  { demoAcceptBuild with
      status := .accepted, escrow_status := .released,
      agent_payout := some 98, platform_fee := some 2,
      release_tx_signature := some "releaseSig" }

/-- Accept-handler inputs whose on-chain transfer fails. -/
def failChainAcceptInput : AcceptInput :=
  { requestFound := true, isOwner := true, agentWallet := some "AgentWallet",
    chain := .error "RPC connection refused" }

/-- Cancel-handler inputs whose on-chain transfer fails. -/
def failChainCancelInput : CancelInput :=
  { requestFound := true, isOwner := true,
    requesterWallet := some "BuyerWallet",
    chain := .error "RPC connection refused" }

/-- A hired build with 100 USDC locked, cancellable by the requester. -/
def demoCancelBuild : Build :=
  { sampleBuild with
      id := 80, status := .hired, escrow_status := .locked,
      agent_payout := none, platform_fee := none }

/-- A delivered build whose escrow was already refunded (reachable when a
cancelled build is later marked delivered by a late pipeline completion). -/
def cexDisputeBuild : Build :=
  { sampleBuild with
      id := 60, status := .delivered, escrow_status := .refunded,
      agent_payout := none, platform_fee := none }

/-- Dispute-handler inputs with a reason and a valid owner. -/
def cexDisputeInput : DisputeInput :=
  { reason := some "site does not load", isOwner := true, now := 500 }

/-- The row the dispute handler writes for cexDisputeBuild. -/
def cexDisputePost : Build :=
  { cexDisputeBuild with
      status := .disputed, escrow_status := .disputed_hold,
      dispute_reason := some "site does not load",
      dispute_opened_at := some 500 }

/-- A delivered build with escrow locked, for the lawful dispute path. -/
def demoDisputeBuild : Build :=
  { cexDisputeBuild with id := 61, escrow_status := .locked }

/-- The row the dispute handler writes for demoDisputeBuild. -/
def demoDisputePost : Build :=
  { demoDisputeBuild with
      status := .disputed, escrow_status := .disputed_hold,
      dispute_reason := some "site does not load",
      dispute_opened_at := some 500 }

/-- A building-status build whose escrow is frozen (reachable when a
disputed build is flipped back to building by a late pipeline
markJobRunning on a retried job). -/
def cexCancelBuild : Build :=
  { sampleBuild with
      id := 70, status := .building, escrow_status := .disputed_hold,
      agent_payout := none, platform_fee := none }

/-- Cancel-handler inputs for a successful refund. -/
def cexCancelInput : CancelInput :=
  { requestFound := true, isOwner := true,
    requesterWallet := some "BuyerWallet", chain := .ok "refundSig" }

/-- The row the cancel handler writes for cexCancelBuild. -/
def cexCancelPost : Build :=
  { cexCancelBuild with
      status := .cancelled, escrow_status := .refunded,
      refund_tx_signature := some "refundSig" }

/-- An SDK pitch (agent_id null) with price 0. -/
def cexSdkPitch : Pitch :=
  { id := 31, request_id := 5, agent_id := none,
    agent_name := some "AgentX", price := some 0 }

/-- Hire inputs for the SDK pitch: signature present, every check passes,
no observable on-chain deposit, sdk_pitches row present. -/
def cexHireInput : HireInput :=
  { txSignature := some "depositSig", requestFound := true, isOwner := true,
    requestOpen := true, pitchFound := true, pitch := cexSdkPitch,
    depositTransfer := none, sdkPitchFound := true, freshBuildId := 100,
    freshJobId := 0, now := 50 }

/-- The build the hire handler inserts for cexHireInput. -/
def cexHireBuild : Build :=
  { id := 100, request_id := 5, agent_id := none,
    agent_name := some "AgentX", status := .hired, escrow_amount := 0,
    escrow_status := .locked, delivery_url := none, agent_payout := none,
    platform_fee := none, deposit_tx_signature := some "depositSig",
    release_tx_signature := none, refund_tx_signature := none,
    dispute_reason := none, dispute_opened_at := none }

/-- An internal-agent pitch priced at 100 USDC. -/
def demoPitch : Pitch :=
  { id := 32, request_id := 6, agent_id := some 7, agent_name := none,
    price := some 100 }

/-- Hire inputs for the internal-agent pitch with a matching 100 USDC
deposit observed on-chain. -/
def demoHireInput : HireInput :=
  { txSignature := some "depositSig2", requestFound := true, isOwner := true,
    requestOpen := true, pitchFound := true, pitch := demoPitch,
    depositTransfer := some 100, sdkPitchFound := false,
    freshBuildId := 101, freshJobId := 201, now := 60 }

/-- The build the hire handler inserts for demoHireInput. -/
def demoHireBuild : Build :=
  { id := 101, request_id := 6, agent_id := some 7, agent_name := none,
    status := .hired, escrow_amount := 100, escrow_status := .locked,
    delivery_url := none, agent_payout := none, platform_fee := none,
    deposit_tx_signature := some "depositSig2",
    release_tx_signature := none, refund_tx_signature := none,
    dispute_reason := none, dispute_opened_at := none }

/-- The pending job the hire handler inserts for demoHireInput. -/
def demoHireJob : BuildJob :=
  { id := 201, build_id := 101, agent_id := 7, status := .pending,
    build_tool := none, prompt := none, delivery_url := none, error := none,
    retry_count := 0, max_retries := 3, last_error := none,
    claimed_at := none, claimed_by := none, created_at := 60,
    updated_at := 60 }

end FourU

namespace FourU

/-- The transition table accepts exactly the spec graph plus the three
extra edges; helper equivalence behind the C2 theorems. -/
theorem validate_iff_edges (f t : BuildStatus) :
    validate_build_transition f t = true ↔
      ((f, t) ∈ specTransitionGraph ∨ (f, t) ∈ extraTransitionEdges) := by
  revert f t
  decide

/-- C2 counterexample: the migrations accept the edge hired → delivered
(added by migration 00019) although the spec graph does not contain it, so
the claimed transition graph is not exactly the spec graph. -/
theorem C2_counterexample :
    validate_build_transition .hired .delivered = true ∧
      (BuildStatus.hired, BuildStatus.delivered) ∉ specTransitionGraph := by
  decide

/-- C2 (amended): a transition is accepted exactly when (from, to) is in
the spec graph or is one of the three extra edges the migrations add
(revision_requested → disputed, hired → delivered,
revision_requested → delivered); every other pair is rejected and leaves
the build status unchanged. -/
theorem C2_transition_soundness :
    (∀ f t : BuildStatus,
        validate_build_transition f t = true ↔
          ((f, t) ∈ specTransitionGraph ∨ (f, t) ∈ extraTransitionEdges)) ∧
    (∀ (b : Build) (tgt : BuildStatus),
        (b.status, tgt) ∉ specTransitionGraph →
        (b.status, tgt) ∉ extraTransitionEdges →
        applyTransition b tgt = (false, b)) := by
  refine ⟨validate_iff_edges, ?_⟩
  intro b tgt h1 h2
  have hv : ¬ validate_build_transition b.status tgt = true := by
    rw [validate_iff_edges]
    exact fun h => h.elim h1 h2
  simp [applyTransition, hv]

/-- C2 witness: the rejected pair (accepted, hired) really leaves a
concrete build unchanged. -/
theorem C2_witness :
    applyTransition sampleBuild .hired = (false, sampleBuild) :=
  C2_transition_soundness.2 sampleBuild .hired (by decide) (by decide)

theorem claim_next_none {s : List BuildJob} (now : Int) (w : String)
    (h : oldestEligible s = none) :
    claim_next_build_job now w s = (none, s) := by
  simp [claim_next_build_job, h]

theorem claim_next_some {s : List BuildJob} {v : BuildJob} (now : Int) (w : String)
    (h : oldestEligible s = some v) :
    claim_next_build_job now w s =
      (some (claimedSnapshot now w v), s.map (claimUpdate now w v.id)) := by
  simp [claim_next_build_job, h]

theorem oldestEligible_mem {s : List BuildJob} {v : BuildJob}
    (h : oldestEligible s = some v) : v ∈ s ∧ jobEligible v = true := by
  have hm : v ∈ (s.filter jobEligible).argmin (·.created_at) :=
    Option.mem_def.mpr h
  exact List.mem_filter.mp (List.argmin_mem hm)

theorem oldestEligible_min {s : List BuildJob} {v : BuildJob}
    (h : oldestEligible s = some v) :
    ∀ j ∈ s, jobEligible j = true → v.created_at ≤ j.created_at := by
  intro j hj he
  have hm : v ∈ (s.filter jobEligible).argmin (·.created_at) :=
    Option.mem_def.mpr h
  exact List.le_of_mem_argmin (List.mem_filter.mpr ⟨hj, he⟩) hm

theorem oldestEligible_none {s : List BuildJob}
    (h : ∀ j ∈ s, jobEligible j = false) : oldestEligible s = none := by
  have hfil : s.filter jobEligible = [] :=
    List.filter_eq_nil_iff.mpr fun a ha => by simp [h a ha]
  simp [oldestEligible, hfil]

theorem claimUpdate_id (now : Int) (w : String) (vid : Nat) (j : BuildJob) :
    (claimUpdate now w vid j).id = j.id := by
  unfold claimUpdate; split <;> rfl

theorem claimUpdate_other {j : BuildJob} {vid : Nat} (now : Int) (w : String)
    (h : j.id ≠ vid) : claimUpdate now w vid j = j := by
  simp [claimUpdate, h]

theorem jobEligible_claimUpdate_self {j : BuildJob} {vid : Nat} (now : Int)
    (w : String) (h : j.id = vid) :
    jobEligible (claimUpdate now w vid j) = false := by
  simp [claimUpdate, h, jobEligible]

theorem ids_after_claimUpdate (now : Int) (w : String) (vid : Nat)
    (s : List BuildJob) :
    (s.map (claimUpdate now w vid)).map (·.id) = s.map (·.id) := by
  rw [List.map_map]
  exact List.map_congr_left fun j _ => claimUpdate_id now w vid j

theorem map_claimUpdate_of_not_mem (now : Int) (w : String) (vid : Nat)
    {s : List BuildJob} (h : vid ∉ s.map (·.id)) :
    s.map (claimUpdate now w vid) = s := by
  have : s.map (claimUpdate now w vid) = s.map id := by
    refine List.map_congr_left fun j hj => ?_
    refine claimUpdate_other now w fun hid => h ?_
    exact List.mem_map.mpr ⟨j, hj, hid⟩
  simpa using this

theorem filter_length_after_claim (now : Int) (w : String) :
    ∀ (s : List BuildJob) (v : BuildJob), (s.map (·.id)).Nodup → v ∈ s →
      jobEligible v = true →
      ((s.map (claimUpdate now w v.id)).filter jobEligible).length + 1 =
        (s.filter jobEligible).length := by
  intro s
  induction s with
  | nil => intro v _ hv; cases hv
  | cons a tl ih =>
    intro v hnd hv helig
    rw [List.map_cons] at hnd
    have hnd1 : a.id ∉ tl.map (·.id) := (List.nodup_cons.mp hnd).1
    have hnd2 : (tl.map (·.id)).Nodup := (List.nodup_cons.mp hnd).2
    by_cases ha : a.id = v.id
    · have hv_eq : v = a := by
        rcases List.mem_cons.mp hv with h | h
        · exact h
        · exact absurd (List.mem_map.mpr ⟨v, h, ha.symm⟩) hnd1
      have htl : tl.map (claimUpdate now w v.id) = tl :=
        map_claimUpdate_of_not_mem now w v.id (ha ▸ hnd1)
      have hea : jobEligible a = true := hv_eq ▸ helig
      simp [List.filter_cons, htl, jobEligible_claimUpdate_self now w ha, hea]
    · have hv_tl : v ∈ tl := by
        rcases List.mem_cons.mp hv with h | h
        · exact absurd (congrArg BuildJob.id h.symm) ha
        · exact h
      have hupd : claimUpdate now w v.id a = a := claimUpdate_other now w ha
      have := ih v hnd2 hv_tl helig
      cases hea : jobEligible a <;>
        simp [List.filter_cons, hupd, hea] <;> omega

theorem claimMany_length (now : Int) :
    ∀ (workers : List String) (s : List BuildJob), (s.map (·.id)).Nodup →
      (claimMany now workers s).1.length =
        min workers.length (s.filter jobEligible).length := by
  intro workers
  induction workers with
  | nil => intro s _; simp [claimMany]
  | cons w ws ih =>
    intro s hnd
    cases h : oldestEligible s with
    | none =>
      have hfil : s.filter jobEligible = [] := by
        have h' : ∀ a ∈ s, jobEligible a = false := by
          simpa [oldestEligible] using h
        exact List.filter_eq_nil_iff.mpr fun a ha => by simp [h' a ha]
      simp [claimMany, claim_next_none now w h, ih s hnd, hfil]
    | some v =>
      obtain ⟨hvmem, hvelig⟩ := oldestEligible_mem h
      have hdrop := filter_length_after_claim now w s v hnd hvmem hvelig
      have hnd' : ((s.map (claimUpdate now w v.id)).map (·.id)).Nodup := by
        rw [ids_after_claimUpdate]; exact hnd
      have hrec := ih (s.map (claimUpdate now w v.id)) hnd'
      simp only [claimMany, claim_next_some now w h]
      simp only [List.length_cons, hrec, List.length_cons]
      omega

theorem claimMany_avoids_dead_ids (now : Int) :
    ∀ (workers : List String) (s : List BuildJob) (i : Nat),
      (∀ j ∈ s, j.id = i → jobEligible j = false) →
      i ∉ (claimMany now workers s).1.map (·.id) := by
  intro workers
  induction workers with
  | nil => intro s i _; simp [claimMany]
  | cons w ws ih =>
    intro s i hdead
    cases h : oldestEligible s with
    | none =>
      simpa [claimMany, claim_next_none now w h] using ih s i hdead
    | some v =>
      obtain ⟨hvmem, hvelig⟩ := oldestEligible_mem h
      have hvi : v.id ≠ i := fun hvi => by
        rw [hdead v hvmem hvi] at hvelig; cases hvelig
      have hdead' : ∀ j ∈ s.map (claimUpdate now w v.id), j.id = i →
          jobEligible j = false := by
        intro j hj hji
        rcases List.mem_map.mp hj with ⟨j0, hj0, rfl⟩
        have hj0i : j0.id = i := by rw [← claimUpdate_id now w v.id j0]; exact hji
        have hj0v : j0.id ≠ v.id := by rw [hj0i]; exact fun h => hvi h.symm
        rw [claimUpdate_other now w hj0v]
        exact hdead j0 hj0 hj0i
      simp only [claimMany, claim_next_some now w h, List.map_cons,
        List.mem_cons, claimedSnapshot]
      push_neg
      exact ⟨fun h => hvi h.symm, ih (s.map (claimUpdate now w v.id)) i hdead'⟩

theorem claimMany_ids_nodup (now : Int) :
    ∀ (workers : List String) (s : List BuildJob), (s.map (·.id)).Nodup →
      ((claimMany now workers s).1.map (·.id)).Nodup := by
  intro workers
  induction workers with
  | nil => intro s _; simp [claimMany]
  | cons w ws ih =>
    intro s hnd
    cases h : oldestEligible s with
    | none => simpa [claimMany, claim_next_none now w h] using ih s hnd
    | some v =>
      have hnd' : ((s.map (claimUpdate now w v.id)).map (·.id)).Nodup := by
        rw [ids_after_claimUpdate]; exact hnd
      have hdead : ∀ j ∈ s.map (claimUpdate now w v.id), j.id = v.id →
          jobEligible j = false := by
        intro j hj hji
        rcases List.mem_map.mp hj with ⟨j0, hj0, rfl⟩
        have hj0v : j0.id = v.id := by
          rw [← claimUpdate_id now w v.id j0]; exact hji
        exact jobEligible_claimUpdate_self now w hj0v
      have hnotin := claimMany_avoids_dead_ids now ws
        (s.map (claimUpdate now w v.id)) v.id hdead
      simp only [claimMany, claim_next_some now w h, List.map_cons,
        List.nodup_cons, claimedSnapshot]
      exact ⟨hnotin, ih (s.map (claimUpdate now w v.id)) hnd'⟩

/-- C4: with every claim call atomic under the row lock, the concurrent
execution of N callers against a store whose row ids are distinct yields
exactly min(N, M) successful claims, where M is the number of eligible
pending jobs, and no job id is claimed twice. -/
theorem C4_at_most_one_claim (now : Int) (workers : List String)
    (s : List BuildJob) (hnd : (s.map (·.id)).Nodup) :
    (claimMany now workers s).1.length =
        min workers.length (s.filter jobEligible).length ∧
      ((claimMany now workers s).1.map (·.id)).Nodup :=
  ⟨claimMany_length now workers s hnd, claimMany_ids_nodup now workers s hnd⟩

/-- C4 witness: three callers against the two-job demo store claim
min(3, 2) jobs with distinct ids. -/
theorem C4_witness :
    (claimMany 100 ["w1", "w2", "w3"] demoStore).1.length =
        min (["w1", "w2", "w3"] : List String).length
          ((demoStore.filter jobEligible).length) ∧
      ((claimMany 100 ["w1", "w2", "w3"] demoStore).1.map (·.id)).Nodup :=
  C4_at_most_one_claim 100 ["w1", "w2", "w3"] demoStore (by decide)

/-- C5: claim_next_build_job selects the single oldest eligible pending
row (status pending, retry_count < max_retries, minimal created_at),
rewrites the stored row to running stamping claimed_at and claimed_by, and
returns the pre-claim snapshot flipped to running with the stamps patched
in; when no eligible row exists it returns none and leaves the store
unchanged. -/
theorem C5_claim_next_spec (now : Int) (w : String) (s : List BuildJob) :
    ((∀ j ∈ s, jobEligible j = false) →
        claim_next_build_job now w s = (none, s)) ∧
    (∀ v, oldestEligible s = some v →
        (jobEligible v = true ∧ v ∈ s ∧
          (∀ j ∈ s, jobEligible j = true → v.created_at ≤ j.created_at)) ∧
        claim_next_build_job now w s =
          (some (claimedSnapshot now w v), s.map (claimUpdate now w v.id))) := by
  constructor
  · intro h
    exact claim_next_none now w (oldestEligible_none h)
  · intro v hv
    obtain ⟨hmem, helig⟩ := oldestEligible_mem hv
    exact ⟨⟨helig, hmem, oldestEligible_min hv⟩, claim_next_some now w hv⟩

/-- C6: end-to-end evaluation of a failed execution attempt. The claimed
job (retry_count 0, max_retries 3) ends at status failed with retry_count
still 0 — not re-queued as pending — because runBuildPipeline traps the
error and marks the job failed itself, so buildWorker.js markJobFailed
(whose behaviour, evaluated last, matches the claim: pending with
retry_count 1) is never invoked; the failed job is no longer claimable and
the build stays at building. -/
theorem C6_retry_policy_unreachable :
    (cexWorldAfterFail.jobs.map fun j =>
        (j.status, j.retry_count, j.last_error, j.error)) =
      [(JobStatus.failed, 0, none, some "Netlify deploy failed: 500")] ∧
    (cexWorldAfterFail.builds.map Build.status) = [BuildStatus.building] ∧
    claim_next_build_job 200 "w2" cexWorldAfterFail.jobs =
      (none, cexWorldAfterFail.jobs) ∧
    ((markJobFailed 150 9 "Netlify deploy failed: 500" 0 3
        (claim_next_build_job 100 "w1" [cexJob]).2).map fun j =>
          (j.status, j.retry_count)) = [(JobStatus.pending, 1)] := by
  refine ⟨rfl, rfl, ?_, rfl⟩
  decide

/-- C7: the reaper is a per-row map. A running row with a fresh claim
(claimed_at within the threshold) is untouched; a running row with a stale
claim is reset to pending with both claim columns null (and becomes
eligible for claiming again whenever its retry budget allows); the update
never reads nor changes retry_count or max_retries. -/
theorem C7_reaper_spec (now : Int) (s : List BuildJob) (j : BuildJob)
    (t : Int) (h : j.claimed_at = some t) :
    (requeue_stuck_build_jobs now s).2 = s.map (requeueJob now) ∧
    (j.status = .running → now - STUCK_TIMEOUT ≤ t → requeueJob now j = j) ∧
    (j.status = .running → t < now - STUCK_TIMEOUT →
      requeueJob now j =
        { j with status := .pending, claimed_at := none, claimed_by := none,
                 updated_at := now }) ∧
    ((requeueJob now j).retry_count = j.retry_count ∧
      (requeueJob now j).max_retries = j.max_retries) ∧
    (∀ r m : Nat,
      requeueJob now { j with retry_count := r, max_retries := m } =
        { requeueJob now j with retry_count := r, max_retries := m }) ∧
    (j.status = .running → t < now - STUCK_TIMEOUT →
      j.retry_count < j.max_retries → jobEligible (requeueJob now j) = true) := by
  refine ⟨rfl, ?_, ?_, ?_, ?_, ?_⟩
  · intro hr hfresh
    have hc : stuckJob now j = false := by
      simp [stuckJob, h]
      omega
    simp [requeueJob, hc]
  · intro hr hstale
    have hc : stuckJob now j = true := by
      simp [stuckJob, h, hr, hstale]
    simp [requeueJob, hc]
  · unfold requeueJob; split <;> simp
  · intro r m
    have hc : stuckJob now { j with retry_count := r, max_retries := m } =
        stuckJob now j := rfl
    unfold requeueJob
    rw [hc]
    split <;> rfl
  · intro hr hstale hretry
    have hc : stuckJob now j = true := by
      simp [stuckJob, h, hr, hstale]
    simp [requeueJob, hc, jobEligible, hretry]

/-- C7 witness: at time 1000, the stale running job (claimed at 0) is
reset to pending with null claim columns. -/
theorem C7_witness :
    requeueJob 1000 runningStaleJob =
      { runningStaleJob with status := .pending, claimed_at := none,
                             claimed_by := none, updated_at := 1000 } :=
  (C7_reaper_spec 1000 [runningStaleJob] runningStaleJob 0 rfl).2.2.1
    (by decide) (by decide)

/-- C5 witness: on the demo store the oldest eligible job (jobB) is
selected, stamped and returned. -/
theorem C5_witness :
    (jobEligible jobB = true ∧ jobB ∈ demoStore ∧
      (∀ j ∈ demoStore, jobEligible j = true →
        jobB.created_at ≤ j.created_at)) ∧
    claim_next_build_job 100 "w1" demoStore =
      (some (claimedSnapshot 100 "w1" jobB),
       demoStore.map (claimUpdate 100 "w1" jobB.id)) :=
  (C5_claim_next_spec 100 "w1" demoStore).2 jobB (by decide)

/-- C1: the accept handler succeeds only when the transition to accepted
is legal and the escrow is locked (never disputed_hold); on success the
build is accepted with escrow released and the recorded payout and fee
sum exactly to the escrow amount. -/
theorem C1_accept_escrow_coupling (b : Build) (inp : AcceptInput)
    (b' : Build) (h : (acceptHandler b inp).1 = HandlerOutcome.ok b') :
    b.escrow_status = .locked ∧
    validate_build_transition b.status .accepted = true ∧
    b'.status = .accepted ∧ b'.escrow_status = .released ∧
    ∃ p f : ℚ, b'.agent_payout = some p ∧ b'.platform_fee = some f ∧
      p + f = b.escrow_amount := by
  unfold acceptHandler at h
  split_ifs at h with h1 h2 h3 h4 h5 h6
  · -- release-transfer branch
    have hlock : b.escrow_status = .locked := not_not.mp h3
    have hval : validate_build_transition b.status .accepted = true := by
      revert h1; cases validate_build_transition b.status .accepted <;> simp
    cases hch : inp.chain with
    | error e => rw [hch] at h; exact absurd h (by simp [releaseToAgent])
    | ok sig =>
      rw [hch] at h
      simp only [releaseToAgent] at h
      have hb' : ({ b with
          status := .accepted, escrow_status := .released,
          agent_payout :=
            some ((⌊b.escrow_amount * ((10000 : ℚ) - PLATFORM_FEE_BPS)⌋ : ℚ) / 10000),
          platform_fee :=
            some (b.escrow_amount -
              (⌊b.escrow_amount * ((10000 : ℚ) - PLATFORM_FEE_BPS)⌋ : ℚ) / 10000),
          release_tx_signature := some sig } : Build) = b' := by
        simpa using h
      refine ⟨hlock, hval, ?_, ?_, ?_⟩
      · rw [← hb']
      · rw [← hb']
      · refine ⟨(⌊b.escrow_amount * ((10000 : ℚ) - PLATFORM_FEE_BPS)⌋ : ℚ) / 10000,
          b.escrow_amount -
            (⌊b.escrow_amount * ((10000 : ℚ) - PLATFORM_FEE_BPS)⌋ : ℚ) / 10000,
          ?_, ?_, by ring⟩
        · rw [← hb']
        · rw [← hb']
  · -- no-transfer branch (zero escrow or no wallet on file)
    have hlock : b.escrow_status = .locked := not_not.mp h3
    have hval : validate_build_transition b.status .accepted = true := by
      revert h1; cases validate_build_transition b.status .accepted <;> simp
    have hb' : ({ b with
        status := .accepted, escrow_status := .released,
        agent_payout :=
          some ((jsRound (b.escrow_amount * ((10000 : ℚ) - PLATFORM_FEE_BPS)) : ℚ) / 10000),
        platform_fee :=
          some (b.escrow_amount -
            (jsRound (b.escrow_amount * ((10000 : ℚ) - PLATFORM_FEE_BPS)) : ℚ) / 10000),
        release_tx_signature := none } : Build) = b' := by
      simpa using h
    refine ⟨hlock, hval, ?_, ?_, ?_⟩
    · rw [← hb']
    · rw [← hb']
    · refine ⟨(jsRound (b.escrow_amount * ((10000 : ℚ) - PLATFORM_FEE_BPS)) : ℚ) / 10000,
        b.escrow_amount -
          (jsRound (b.escrow_amount * ((10000 : ℚ) - PLATFORM_FEE_BPS)) : ℚ) / 10000,
        ?_, ?_, by ring⟩
      · rw [← hb']
      · rw [← hb']

/-- C1 witness: accepting the delivered 100 USDC build releases 98 to the
agent and retains 2, summing exactly to the escrow amount. -/
theorem C1_witness :
    demoAcceptBuild.escrow_status = .locked ∧
    validate_build_transition demoAcceptBuild.status .accepted = true ∧
    demoAcceptPost.status = .accepted ∧
    demoAcceptPost.escrow_status = .released ∧
    ∃ p f : ℚ, demoAcceptPost.agent_payout = some p ∧
      demoAcceptPost.platform_fee = some f ∧
      p + f = demoAcceptBuild.escrow_amount :=
  C1_accept_escrow_coupling demoAcceptBuild demoAcceptInput demoAcceptPost
    (by
      have hv : validate_build_transition BuildStatus.delivered .accepted = true := by
        decide
      norm_num [acceptHandler, releaseToAgent, demoAcceptBuild,
        demoAcceptInput, demoAcceptPost, sampleBuild, PLATFORM_FEE_BPS, hv] <;>
        simp)

/-- Helper: the accept handler always rejects a build whose escrow is
frozen by a dispute. -/
theorem accept_rejects_frozen (b : Build) (ia : AcceptInput)
    (hf : b.escrow_status = .disputed_hold) :
    ∀ b'' : Build, (acceptHandler b ia).1 ≠ HandlerOutcome.ok b'' := by
  intro b''
  unfold acceptHandler
  split_ifs with h1 h2 <;> simp_all

/-- C8 counterexample: the dispute handler succeeds on a delivered build
whose escrow_status is refunded, not locked — the handler never inspects
escrow_status. -/
theorem C8_counterexample :
    (disputeHandler cexDisputeBuild cexDisputeInput).1 =
      HandlerOutcome.ok cexDisputePost ∧
    cexDisputeBuild.escrow_status ≠ .locked := by
  constructor
  · rfl
  · simp [cexDisputeBuild, sampleBuild]

/-- C8 (amended): the dispute handler succeeds only when a reason is
given, the caller owns the request and the transition to disputed is
legal — it does not check escrow_status; on success the build is disputed
with escrow_status disputed_hold, the reason is recorded, and the accept
handler rejects the resulting build until the hold is lifted. -/
theorem C8_dispute_spec (b : Build) (inp : DisputeInput) (b' : Build)
    (h : (disputeHandler b inp).1 = HandlerOutcome.ok b') :
    validate_build_transition b.status .disputed = true ∧
    b'.status = .disputed ∧ b'.escrow_status = .disputed_hold ∧
    (∃ r, inp.reason = some r ∧ b'.dispute_reason = some r) ∧
    (∀ (ia : AcceptInput) (b'' : Build),
      (acceptHandler b' ia).1 ≠ HandlerOutcome.ok b'') := by
  unfold disputeHandler at h
  cases hr : inp.reason with
  | none => rw [hr] at h; exact absurd h (by simp)
  | some r =>
    rw [hr] at h
    split_ifs at h with h1 h2
    · have hval : validate_build_transition b.status .disputed = true := by
        revert h2; cases validate_build_transition b.status .disputed <;> simp
      have hb' : ({ b with
          status := .disputed, escrow_status := .disputed_hold,
          dispute_reason := some r,
          dispute_opened_at := some inp.now } : Build) = b' := by
        simpa using h
      refine ⟨hval, ?_, ?_, ⟨r, rfl, ?_⟩, ?_⟩
      · rw [← hb']
      · rw [← hb']
      · rw [← hb']
      · intro ia b''
        exact accept_rejects_frozen b' ia (by rw [← hb']) b''

/-- C8 witness: a lawful dispute on a delivered, locked build freezes the
escrow and blocks accept. -/
theorem C8_witness :
    validate_build_transition demoDisputeBuild.status .disputed = true ∧
    demoDisputePost.status = .disputed ∧
    demoDisputePost.escrow_status = .disputed_hold ∧
    (∃ r, cexDisputeInput.reason = some r ∧
      demoDisputePost.dispute_reason = some r) ∧
    (∀ (ia : AcceptInput) (b'' : Build),
      (acceptHandler demoDisputePost ia).1 ≠ HandlerOutcome.ok b'') :=
  C8_dispute_spec demoDisputeBuild cexDisputeInput demoDisputePost rfl

/-- C9: evaluated at a build whose escrow_status is disputed_hold but
whose status is building, the cancel handler succeeds — refunding and
cancelling a frozen escrow — because its select list omits escrow_status,
so its disputed_hold guard compares an absent field and never fires. -/
theorem C9_cancel_ignores_disputed_hold :
    cexCancelBuild.escrow_status = .disputed_hold ∧
    (cancelHandler cexCancelBuild cexCancelInput).1 =
      HandlerOutcome.ok cexCancelPost ∧
    cexCancelPost.status = .cancelled ∧
    cexCancelPost.escrow_status = .refunded := by
  refine ⟨rfl, ?_, rfl, rfl⟩
  have hv : validate_build_transition BuildStatus.building .cancelled = true := by
    decide
  norm_num [cancelHandler, refundToBuyer, cexCancelBuild, cexCancelInput,
    cexCancelPost, sampleBuild, hv] <;> simp [Except.map]

/-- C10: a failed settlement transfer (release during accept, refund
during cancel) surfaces the thrown error and leaves the build row exactly
as it was, so the action can be retried. -/
theorem C10_settlement_failure_preserves_state (b : Build) (e : String)
    (ia : AcceptInput) (ic : CancelInput) :
    (ia.chain = .error e → 0 < b.escrow_amount → ia.agentWallet ≠ none →
      (acceptHandler b ia).2 = b ∧
        ∀ b'' : Build, (acceptHandler b ia).1 ≠ HandlerOutcome.ok b'') ∧
    (ic.chain = .error e → 0 < b.escrow_amount → ic.requesterWallet ≠ none →
      (cancelHandler b ic).2 = b ∧
        ∀ b'' : Build, (cancelHandler b ic).1 ≠ HandlerOutcome.ok b'') := by
  constructor
  · intro hch hpos hw
    unfold acceptHandler
    split_ifs with h1 h2 h3 h4 h5 h6
    · exact ⟨rfl, by simp⟩
    · exact ⟨rfl, by simp⟩
    · exact ⟨rfl, by simp⟩
    · exact ⟨rfl, by simp⟩
    · exact ⟨rfl, by simp⟩
    · rw [hch]; exact ⟨rfl, by simp [releaseToAgent]⟩
    · exact absurd ⟨hpos, hw⟩ h6
  · intro hch hpos hw
    unfold cancelHandler
    split_ifs with h1 h2 h3 h4
    · exact ⟨rfl, by simp⟩
    · exact ⟨rfl, by simp⟩
    · exact ⟨rfl, by simp⟩
    · rw [hch]
      exact ⟨rfl, by simp [refundToBuyer, Except.map]⟩
    · exact absurd ⟨hpos, hw⟩ h4

/-- C10 witness: with the transfer failing, accepting the delivered build
and cancelling the hired build both leave the rows untouched. -/
theorem C10_witness :
    ((acceptHandler demoAcceptBuild failChainAcceptInput).2 =
        demoAcceptBuild ∧
      ∀ b'' : Build, (acceptHandler demoAcceptBuild failChainAcceptInput).1 ≠
        HandlerOutcome.ok b'') ∧
    ((cancelHandler demoCancelBuild failChainCancelInput).2 =
        demoCancelBuild ∧
      ∀ b'' : Build, (cancelHandler demoCancelBuild failChainCancelInput).1 ≠
        HandlerOutcome.ok b'') :=
  ⟨(C10_settlement_failure_preserves_state demoAcceptBuild
      "RPC connection refused" failChainAcceptInput failChainCancelInput).1
      rfl (by norm_num [demoAcceptBuild, sampleBuild]) (by simp [failChainAcceptInput]),
   (C10_settlement_failure_preserves_state demoCancelBuild
      "RPC connection refused" failChainAcceptInput failChainCancelInput).2
      rfl (by norm_num [demoCancelBuild, sampleBuild]) (by simp [failChainCancelInput])⟩

/-- C3 counterexample: a successful SDK-pitch hire (agent_id null, price
0) creates the build with escrow locked but no build job at all, and no
deposit verification has succeeded (there is no observable deposit). -/
theorem C3_counterexample :
    hireHandler cexHireInput = HireOutcome.created cexHireBuild none ∧
    cexHireBuild.status = .hired ∧ cexHireBuild.escrow_status = .locked ∧
    (verifyUsdcDeposit cexHireInput.depositTransfer 0).verified = false := by
  refine ⟨?_, rfl, rfl, rfl⟩
  norm_num [hireHandler, cexHireInput, cexSdkPitch, cexHireBuild] <;> simp

/-- C3 (amended): a successful hire creates a build with status hired and
escrow_status locked; a pending build job for that build is created
exactly when the pitch names an internal agent (SDK hires create none);
and when the pitch price is positive, deposit verification succeeded,
which requires the observed deposit to be at least the price minus 0.01
USDC. -/
theorem C3_hire_spec (inp : HireInput) (b : Build) (jo : Option BuildJob)
    (h : hireHandler inp = HireOutcome.created b jo) :
    b.status = .hired ∧ b.escrow_status = .locked ∧
    (∀ aid, inp.pitch.agent_id = some aid →
      ∃ j, jo = some j ∧ j.status = .pending ∧ j.build_id = b.id ∧
        j.agent_id = aid ∧ j.retry_count = 0) ∧
    (inp.pitch.agent_id = none → jo = none) ∧
    (0 < inp.pitch.price.getD 0 →
      (verifyUsdcDeposit inp.depositTransfer
        (inp.pitch.price.getD 0)).verified = true ∧
      ∃ a, inp.depositTransfer = some a ∧
        inp.pitch.price.getD 0 - 1 / 100 ≤ a) := by
  unfold hireHandler at h
  by_cases h1 : inp.txSignature = none
  · rw [if_pos h1] at h; simp at h
  rw [if_neg h1] at h
  by_cases h2 : inp.requestFound = false
  · rw [if_pos h2] at h; simp at h
  rw [if_neg h2] at h
  by_cases h3 : inp.isOwner = false
  · rw [if_pos h3] at h; simp at h
  rw [if_neg h3] at h
  by_cases h4 : inp.requestOpen = false
  · rw [if_pos h4] at h; simp at h
  rw [if_neg h4] at h
  by_cases h5 : inp.pitchFound = false
  · rw [if_pos h5] at h; simp at h
  rw [if_neg h5] at h
  by_cases h6 : 0 < inp.pitch.price.getD 0 ∧
      (verifyUsdcDeposit inp.depositTransfer
        (inp.pitch.price.getD 0)).verified = false
  · rw [if_pos h6] at h; simp at h
  rw [if_neg h6] at h
  have hver : 0 < inp.pitch.price.getD 0 →
      (verifyUsdcDeposit inp.depositTransfer
        (inp.pitch.price.getD 0)).verified = true ∧
      ∃ a, inp.depositTransfer = some a ∧
        inp.pitch.price.getD 0 - 1 / 100 ≤ a := by
    intro hpos
    have hv : (verifyUsdcDeposit inp.depositTransfer
        (inp.pitch.price.getD 0)).verified = true := by
      rcases hb : (verifyUsdcDeposit inp.depositTransfer
          (inp.pitch.price.getD 0)).verified with _ | _
      · exact absurd ⟨hpos, hb⟩ h6
      · rfl
    refine ⟨hv, ?_⟩
    cases hdep : inp.depositTransfer with
    | none => rw [hdep] at hv; simp [verifyUsdcDeposit] at hv
    | some a =>
      rw [hdep] at hv
      refine ⟨a, rfl, ?_⟩
      by_contra hlt
      push_neg at hlt
      rw [verifyUsdcDeposit, if_pos hlt] at hv
      simp at hv
  cases hag : inp.pitch.agent_id with
  | none =>
    rw [hag] at h
    by_cases h7 : inp.sdkPitchFound = false
    · rw [if_pos h7] at h; simp at h
    rw [if_neg h7] at h
    injection h with hb hjo
    refine ⟨?_, ?_, ?_, fun _ => hjo.symm, hver⟩
    · rw [← hb]
    · rw [← hb]
    · intro aid haid; simp at haid
  | some aid =>
    rw [hag] at h
    injection h with hb hjo
    refine ⟨?_, ?_, ?_, ?_, hver⟩
    · rw [← hb]
    · rw [← hb]
    · intro aid2 haid2
      injection haid2 with haid3
      subst haid3
      exact ⟨_, hjo.symm, rfl, by rw [← hb], rfl, rfl⟩
    · intro hnone; simp at hnone

/-- C3 witness: hiring the internal-agent pitch at 100 USDC with a
matching deposit creates the hired/locked build together with a pending
job, and the deposit clears the tolerance check. -/
theorem C3_witness :
    demoHireBuild.status = .hired ∧ demoHireBuild.escrow_status = .locked ∧
    (∀ aid, demoHireInput.pitch.agent_id = some aid →
      ∃ j, (some demoHireJob : Option BuildJob) = some j ∧
        j.status = .pending ∧ j.build_id = demoHireBuild.id ∧
        j.agent_id = aid ∧ j.retry_count = 0) ∧
    (demoHireInput.pitch.agent_id = none →
      (some demoHireJob : Option BuildJob) = none) ∧
    (0 < demoHireInput.pitch.price.getD 0 →
      (verifyUsdcDeposit demoHireInput.depositTransfer
        (demoHireInput.pitch.price.getD 0)).verified = true ∧
      ∃ a, demoHireInput.depositTransfer = some a ∧
        demoHireInput.pitch.price.getD 0 - 1 / 100 ≤ a) :=
  C3_hire_spec demoHireInput demoHireBuild (some demoHireJob)
    (by norm_num [hireHandler, verifyUsdcDeposit, demoHireInput, demoPitch,
      demoHireBuild, demoHireJob] <;> simp)

end FourU
